import Mathlib

/-!
Verification development for the receipt-enrichment workflow engine.

The definitions below are a shallow embedding of the TypeScript sources:
  - the field normalizers `normalizeDate` / `normalizeTime` and the
    persistence serializer `saveReceiptToSupabase` from
    `src/lib/ai/tools/process-receipt.ts`;
  - the extraction adapter `processReceipt.execute` from the same file;
  - the vendor lookup `searchWeb.execute` from `src/lib/ai/tools/search-web.ts`;
  - the categorizer `categorizeTransaction.execute`;
  - the orchestrator `runWorkflow.execute` (the live second version of the
    run-workflow module).

External service calls (vision/LLM streams, the search HTTP call, the
database) are modelled as environment records holding their outcomes; a call
that can reject is modelled with `Except`.  JavaScript strings are modelled
as `String`/`List Char`, JS numbers as `ℚ`, absent (`undefined`/`null`)
fields as `Option`, and JS truthiness of strings ("" and undefined are
falsy) by `jsTruthyStr`.
-/

/-- JS truthiness for an optional string: `undefined` and `""` are falsy. -/
def jsTruthyStr : Option String → Bool
  | some s => s != ""
  | none => false

/-- JS `a || b` on optional strings (returns `b` when `a` is falsy). -/
def jsOrOpt (a b : Option String) : Option String :=
  if jsTruthyStr a = true then a else b

/-- JS `a || d` where `d` is a (truthy) default string. -/
def jsOrStr (a : Option String) (d : String) : String :=
  match a with
  | some s => if s != "" then s else d
  | none => d

/-- JS `a || undefined` on an optional string. -/
def jsOrUndef (a : Option String) : Option String :=
  if jsTruthyStr a = true then a else none

/-- JS `x || d` on an optional number (`0` is falsy). -/
def jsOrQ (a : Option ℚ) (d : ℚ) : ℚ :=
  match a with
  | some x => if x = 0 then d else x
  | none => d

/-- Whitespace characters removed by JS `String.prototype.trim` (the ASCII
ones; the sources never produce the exotic Unicode spaces). -/
def isJsWs (c : Char) : Bool :=
  c == ' ' || c == '\t' || c == '\n' || c == '\r' || c == '\x0B' || c == '\x0C'

/-- JS `s.trim()` on a character list. -/
def jsTrim (l : List Char) : List Char :=
  ((l.dropWhile isJsWs).reverse.dropWhile isJsWs).reverse

/-- The character for a decimal digit value. -/
def digitChar (n : Nat) : Char := Char.ofNat (48 + n)

/-- JS `String(n).padStart(2, '0')` for the clamped two-digit range the
normalizers produce (all call sites clamp `n` to at most 59). -/
def pad2 (n : Nat) : List Char := [digitChar (n / 10), digitChar (n % 10)]

/-- JS `parseInt(ds, 10)` on a digit string. -/
def digitsToNat (l : List Char) : Nat :=
  l.foldl (fun a c => a * 10 + (c.toNat - 48)) 0

/-- A maximal leading digit run and the rest, as a regex `(\d*)` group
followed by the remainder would capture it. -/
def splitDigits (l : List Char) : List Char × List Char :=
  (l.takeWhile Char.isDigit, l.dropWhile Char.isDigit)

/-- The anchored test `/^\d{4}-\d{2}-\d{2}$/.test raw` from `normalizeDate`. -/
def isYYYYMMDD (l : List Char) : Bool :=
  match splitDigits l with
  | (ds1, c1 :: r2) =>
    if c1 = '-' ∧ ds1.length = 4 then
      match splitDigits r2 with
      | (ds2, c2 :: r4) =>
        if c2 = '-' ∧ ds2.length = 2 then
          match splitDigits r4 with
          | (ds3, rest) => ds3.length == 2 && rest.isEmpty
        else false
      | _ => false
    else false
  | _ => false

/-- The anchored match `raw.match(/^(\d{1,2})\/(\d{1,2})\/(\d{4})$/)` from
`normalizeDate`: month and day components as `parseInt` values, plus the
four-digit year string. -/
def matchMDY (l : List Char) : Option (Nat × Nat × List Char) :=
  match splitDigits l with
  | (ds1, c1 :: r2) =>
    if c1 = '/' ∧ 1 ≤ ds1.length ∧ ds1.length ≤ 2 then
      match splitDigits r2 with
      | (ds2, c2 :: r4) =>
        if c2 = '/' ∧ 1 ≤ ds2.length ∧ ds2.length ≤ 2 then
          match splitDigits r4 with
          | (ds3, []) =>
            if ds3.length = 4 then some (digitsToNat ds1, digitsToNat ds2, ds3) else none
          | _ => none
        else none
      | _ => none
    else none
  | _ => none

/-- The sentinel date string rejected by `normalizeDate`. -/
def sentinelDate : List Char := ("0000-00-00").toList

/-- The function `normalizeDate` from `process-receipt.ts` on character lists.  `today`
stands for `new Date().toISOString().slice(0, 10)` evaluated at the call. -/
def normalizeDateL (today : List Char) (input : List Char) : List Char :=
  let raw := jsTrim input
  if raw = [] ∨ raw = sentinelDate then today
  else if isYYYYMMDD raw = true then raw
  else
    match matchMDY raw with
    | some (m, d, y) =>
      y ++ ('-' :: pad2 (min (max m 1) 12)) ++ ('-' :: pad2 (min (max d 1) 31))
    | none => today

/-- The function `normalizeDate` on a possibly-absent string field (`typeof input !==
'string'` yields `today`). -/
def normalizeDateField (today : List Char) (o : Option String) : List Char :=
  match o with
  | some s => normalizeDateL today s.toList
  | none => today

/-- The function `normalizeDate` on `String`. -/
def normalizeDate (today input : String) : String :=
  String.mk (normalizeDateL today.toList input.toList)

/-- The anchored match `raw.match(/^(\d{1,2}):(\d{2})(?::(\d{2}))?$/)` from
`normalizeTime`: hour and minute components as `parseInt` values. -/
def matchHM (l : List Char) : Option (Nat × Nat) :=
  match splitDigits l with
  | (ds1, c1 :: r2) =>
    if c1 = ':' ∧ 1 ≤ ds1.length ∧ ds1.length ≤ 2 then
      match splitDigits r2 with
      | (ds2, rest) =>
        if ds2.length = 2 then
          match rest with
          | [] => some (digitsToNat ds1, digitsToNat ds2)
          | c3 :: r4 =>
            if c3 = ':' then
              match splitDigits r4 with
              | (ds3, []) =>
                if ds3.length = 2 then some (digitsToNat ds1, digitsToNat ds2) else none
              | _ => none
            else none
        else none
    else none
  | _ => none

/-- The function `normalizeTime` from `process-receipt.ts` on character lists (`none` is
JS `undefined`). -/
def normalizeTimeL (input : List Char) : Option (List Char) :=
  let raw := jsTrim input
  if raw = [] then none
  else
    match matchHM raw with
    | some (h, m) => some (pad2 (min (max h 0) 23) ++ (':' :: pad2 (min (max m 0) 59)))
    | none => none

/-- The function `normalizeTime` on a possibly-absent string field. -/
def normalizeTimeField (o : Option String) : Option (List Char) :=
  match o with
  | some s => normalizeTimeL s.toList
  | none => none

/-- The function `normalizeTime` on `String`. -/
def normalizeTime (input : String) : Option String :=
  (normalizeTimeL input.toList).map String.mk

example : normalizeDate ("2025-06-01") ("2024-01-02") = ("2024-01-02") := by decide
example : normalizeDate ("2025-06-01") (" 2024-01-02") = ("2024-01-02") := by decide
example : normalizeTime ("9:30") = some ("09:30") := by decide
example : normalizeTime (" 9:30") = some ("09:30") := by decide

/-! ## Data model -/

/-- One purchased line item, as extracted (`receiptItemSchema`). -/
structure LineItem where
  name : Option String
  quantity : Option ℚ
  unitPrice : Option ℚ
  totalPrice : Option ℚ
  category : Option String
deriving DecidableEq

/-- The extracted receipt record (`receiptSchema` plus the attached
`imageUrl`).  Fields the extractor did not produce are `none`. -/
structure ReceiptData where
  merchantName : Option String
  merchantAddress : Option String
  receiptDate : Option String
  receiptTime : Option String
  receiptNumber : Option String
  items : List LineItem
  subtotal : Option ℚ
  tax : Option ℚ
  tip : Option ℚ
  total : Option ℚ
  paymentMethod : Option String
  currency : Option String
  imageUrl : Option String
deriving DecidableEq

/-- A receipt record with every field absent, for building test values. -/
def emptyReceipt : ReceiptData :=
  { merchantName := none, merchantAddress := none, receiptDate := none
    receiptTime := none, receiptNumber := none, items := []
    subtotal := none, tax := none, tip := none, total := none
    paymentMethod := none, currency := none, imageUrl := none }

/-- The categorizer's output triple. -/
structure Categorization where
  category : String
  confidence : ℚ
  rationale : String
deriving DecidableEq

/-- One mapped web-search result (`searchWeb`'s `items` entries). -/
structure SearchItem where
  title : String
  snippet : String
  url : String
  score : Option ℚ
deriving DecidableEq

/-- The value `searchWeb.execute` resolves to: either the `{error: ...}`
shape or the `{success: true, query, answer, results, response}` shape. -/
inductive SearchReturn where
  | errorShape (msg : String)
  | okShape (query : String) (answer : Option String) (results : List SearchItem)
      (response : String)
deriving DecidableEq

/-- The test `Boolean(mi?.results?.length)` on the stored `merchantInfo`. -/
def foundFlag : Option SearchReturn → Bool
  | some (SearchReturn.okShape _ _ rs _) => rs.length != 0
  | _ => false

/-- The expression `ctx.merchantInfo?.results?.[0] || null`: the adopted vendor annotation. -/
def firstResult? : Option SearchReturn → Option SearchItem
  | some (SearchReturn.okShape _ _ (r :: _) _) => some r
  | _ => none

/-- The header row handed to the persistence call `saveReceipt` by
`saveReceiptToSupabase` (with the normalizers applied at this boundary). -/
structure SavedHeader where
  merchantName : String
  merchantAddress : Option String
  receiptDate : List Char
  receiptTime : Option (List Char)
  receiptNumber : Option String
  subtotal : Option ℚ
  tax : Option ℚ
  tip : Option ℚ
  total : ℚ
  paymentMethod : Option String
  currency : String
  imageUrl : Option String
deriving DecidableEq

/-- The argument object built by `saveReceiptToSupabase` for `saveReceipt`. -/
def toSavedHeader (today : List Char) (d : ReceiptData) : SavedHeader :=
  { merchantName := jsOrStr d.merchantName ("Unknown Merchant")
    merchantAddress := jsOrUndef d.merchantAddress
    receiptDate := normalizeDateField today d.receiptDate
    receiptTime := normalizeTimeField d.receiptTime
    receiptNumber := jsOrUndef d.receiptNumber
    subtotal := d.subtotal
    tax := d.tax
    tip := d.tip
    total := jsOrQ d.total 0
    paymentMethod := jsOrUndef d.paymentMethod
    currency := jsOrStr d.currency ("USD")
    imageUrl := jsOrUndef d.imageUrl }

/-! ## Extraction adapter (`processReceipt.execute`) -/

/-- Events `processReceipt.execute` writes to the shared data stream. -/
inductive PREvent where
  | prKind (s : String)
  | prId (s : String)
  | prTitle (s : String)
  | prClear
  | prReceiptDelta (r : ReceiptData)
  | prFinish
deriving DecidableEq

/-- The value `processReceipt.execute` resolves to: the success object
(whose `extractedData` may still be `null`), or the `{error: ...}` object
produced by its catch-all. -/
inductive PRReturn where
  | okShape (extractedData : Option ReceiptData)
  | errorShape (msg : String)
deriving DecidableEq

/-- The field read `receiptResult?.extractedData` as done by the orchestrator. -/
def PRReturn.extractedData? : PRReturn → Option ReceiptData
  | PRReturn.okShape d => d
  | PRReturn.errorShape _ => none

/-- Outcomes of the external calls `processReceipt.execute` makes: the
stream of parsed objects from the schema-constrained extraction call, an
optional exception thrown after those deltas, and the persistence result.
(The OCR pre-pass only selects the prompt and its failure is swallowed, so
it needs no field.) -/
structure PREnv where
  today : List Char
  stream : List ReceiptData
  streamThrows : Option String
  hasUser : Bool
  saveOutcome : Except String Unit

/-- The statement `if (img && !extractedData.imageUrl) extractedData.imageUrl = img`. -/
def attachImg (img : Option String) (r : ReceiptData) : ReceiptData :=
  if jsTruthyStr img = true ∧ jsTruthyStr r.imageUrl = false then
    { r with imageUrl := img }
  else r

/-- The tool body `processReceipt.execute`, lines 50-171 of `process-receipt.ts`.  Returns
the stream writes it performed and the value it resolves to; its catch-all
converts every internal failure (stream iteration or persistence) into the
returned `{error: ...}` object. -/
def processReceiptExecute (env : PREnv) (uuid imageDescription : String)
    (imageUrlFromInput imageUrlClosure : Option String) : List PREvent × PRReturn :=
  let pre := [PREvent.prKind ("receipt"), PREvent.prId uuid,
              PREvent.prTitle ("Receipt Data"), PREvent.prClear]
  let img := jsOrOpt imageUrlFromInput imageUrlClosure
  let attached := env.stream.map (attachImg img)
  let evs := pre ++ attached.map PREvent.prReceiptDelta
  let extractedData := attached.getLast?
  match env.streamThrows with
  | some _ => (evs, PRReturn.errorShape ("Failed to process receipt. Please try again."))
  | none =>
    match (if env.hasUser = true then extractedData else none) with
    | some _ =>
      match env.saveOutcome with
      | Except.error _ =>
        (evs, PRReturn.errorShape ("Failed to process receipt. Please try again."))
      | Except.ok _ => (evs ++ [PREvent.prFinish], PRReturn.okShape extractedData)
    | none => (evs ++ [PREvent.prFinish], PRReturn.okShape extractedData)

/-! ## Vendor lookup (`searchWeb.execute`) -/

/-- Outcomes of the environment and HTTP call `searchWeb.execute` reads. -/
structure SearchEnv where
  userId : Option String
  apiKey : Option String
  fetchThrows : Option String
  fetchOk : Bool
  fetchResults : List SearchItem
  fetchAnswer : Option String

/-- The `summarize` helper of `search-web.ts`. -/
def summarize (items : List SearchItem) : String :=
  match items with
  | [] => "No results found."
  | top :: rest =>
    ("Top result: ") ++ top.title ++ (". More: ") ++
      String.intercalate ("; ") (rest.map SearchItem.title)

/-- The tool body `searchWeb.execute`, lines 19-66 of `search-web.ts`.  Missing
credentials and provider failures are returned as the `{error: ...}` shape,
never thrown. -/
def searchWebExecute (env : SearchEnv) (query : String) (maxResults : Nat) : SearchReturn :=
  if jsTruthyStr env.userId = false then SearchReturn.errorShape ("User not authenticated")
  else if jsTruthyStr env.apiKey = false then SearchReturn.errorShape ("Missing TAVILY_API_KEY")
  else
    match env.fetchThrows with
    | some _ => SearchReturn.errorShape ("Failed to search the web")
    | none =>
      if env.fetchOk = false then SearchReturn.errorShape ("Search provider error")
      else
        let items := env.fetchResults.take maxResults
        SearchReturn.okShape query env.fetchAnswer items
          (jsOrStr env.fetchAnswer (summarize items))

/-! ## Categorizer (`categorizeTransaction.execute`) -/

/-- One delta of the categorizer's schema-constrained generation stream. -/
inductive CatDelta where
  | objectDelta (c : Categorization)
  | otherDelta
deriving DecidableEq

/-- The last parsed object of the stream (`result` after the loop). -/
def lastObject (ds : List CatDelta) : Option Categorization :=
  ds.foldl (fun acc d =>
    match d with
    | CatDelta.objectDelta c => some c
    | CatDelta.otherDelta => acc) none

/-- The tool body `categorizeTransaction.execute`: keeps the last parsed object and falls
back to the fixed triple when the stream produced none; the fallback is a
normal return value, not a raised error. -/
def categorizeTransactionExecute (ds : List CatDelta) : Categorization :=
  match lastObject ds with
  | some c => c
  | none =>
    { category := ("Other"), confidence := (3 : ℚ) / 10
      rationale := ("Fallback categorization") }

/-! ## Workflow orchestrator (`runWorkflow.execute`) -/

/-- Payloads of the step progress events the orchestrator writes. -/
inductive Payload where
  | noInfo
  | merchant (m : Option String)
  | hasData (b : Bool)
  | found (b : Bool)
  | categorization (c : Categorization)
deriving DecidableEq

/-- The merged record re-emitted for artifact consumers:
`{...ctx.receipt, categorization, vendor}`. -/
structure Enriched where
  base : ReceiptData
  categorization : Option Categorization
  vendor : Option SearchItem
deriving DecidableEq

/-- Events on the shared progress stream, as written by the orchestrator or
(between the `extract` start and outcome) by the nested extraction adapter. -/
inductive Event where
  | dataTitle (s : String)
  | dataKind (s : String)
  | dataId (s : String)
  | dataClear
  | stepStart (step : String) (info : Payload)
  | stepSuccess (step : String) (result : Payload)
  | stepError (step : String) (err : String)
  | dataReceiptRaw (r : ReceiptData)
  | dataReceiptEnriched (e : Enriched)
  | dataFinish
deriving DecidableEq

/-- How the extraction adapter's writes appear on the shared stream. -/
def prEventToEvent : PREvent → Event
  | PREvent.prKind s => Event.dataKind s
  | PREvent.prId s => Event.dataId s
  | PREvent.prTitle s => Event.dataTitle s
  | PREvent.prClear => Event.dataClear
  | PREvent.prReceiptDelta r => Event.dataReceiptRaw r
  | PREvent.prFinish => Event.dataFinish

/-- Outcomes of the three awaited tool calls inside one workflow run:
what `extract.execute` wrote and resolved to (or the error it rejected
with), and likewise for `search.execute` and `categorize.execute`
(consulted only when those calls happen). -/
structure WfEnv where
  extractEmitted : List PREvent
  extractOutcome : Except String PRReturn
  searchOutcome : Except String SearchReturn
  categorizeOutcome : Except String Categorization

/-- The value `runWorkflow.execute` resolves to: the unknown-name
`{error: ...}` object, or the final `{success: true, workflow, receipt,
categorization, vendor}` payload. -/
inductive RunResult where
  | errorResult (msg : String)
  | successResult (workflow : String) (receipt : Option ReceiptData)
      (categorization : Option Categorization) (vendor : Option SearchReturn)
deriving DecidableEq

/-- The vendor_search try-block, lines 121-133: the search call happens only
under a truthy merchant name; a rejection is caught as a step-error with
`merchantInfo` left unset, otherwise the resolved value (error shape
included) is stored and a step-success with `found` is emitted. -/
def vendorEvents (merchant : Option String) (so : Except String SearchReturn) :
    List Event × Option SearchReturn :=
  if jsTruthyStr merchant = true then
    match so with
    | Except.error err => ([Event.stepError ("vendor_search") err], none)
    | Except.ok sr =>
      ([Event.stepSuccess ("vendor_search") (Payload.found (foundFlag (some sr)))], some sr)
  else
    ([Event.stepSuccess ("vendor_search") (Payload.found (foundFlag none))], none)

/-- The categorize try-block, lines 137-150: a rejection is caught as a
step-error, otherwise the categorization is stored and echoed in a
step-success. -/
def catEvents (co : Except String Categorization) :
    List Event × Option Categorization :=
  match co with
  | Except.error err => ([Event.stepError ("categorize") err], none)
  | Except.ok c => ([Event.stepSuccess ("categorize") (Payload.categorization c)], some c)

/-- The tool body `runWorkflow.execute`, lines 84-175 of the run-workflow module: the full
ordered list of stream writes of one run, and the run's result (`Except.error`
models the re-raised extraction error). -/
def runWorkflowExecute (name : String) (env : WfEnv) :
    List Event × Except String RunResult :=
  if name = "receipt_enrichment" then
    let pre : List Event :=
      [Event.dataTitle ("Receipt Data"), Event.dataKind ("receipt"), Event.dataClear,
       Event.stepStart ("extract") Payload.noInfo]
      ++ env.extractEmitted.map prEventToEvent
    match env.extractOutcome with
    | Except.error err =>
      (pre ++ [Event.stepError ("extract") err], Except.error err)
    | Except.ok ret =>
      let receipt := ret.extractedData?
      let merchant := receipt.bind ReceiptData.merchantName
      let searched := vendorEvents merchant env.searchOutcome
      let categorized := catEvents env.categorizeOutcome
      let evs :=
        pre ++ [Event.stepSuccess ("extract") (Payload.hasData receipt.isSome),
                Event.stepStart ("vendor_search") (Payload.merchant merchant)]
        ++ searched.1
        ++ [Event.stepStart ("categorize") Payload.noInfo]
        ++ categorized.1
        ++ (match receipt with
            | some r =>
              [Event.dataReceiptEnriched
                { base := r, categorization := categorized.2, vendor := firstResult? searched.2 }]
            | none => [])
        ++ [Event.dataFinish]
      (evs, Except.ok (RunResult.successResult name receipt categorized.2 searched.2))
  else
    ([], Except.ok (RunResult.errorResult (("Unknown workflow: ") ++ name)))

/-! ## Step-event observations -/

/-- Lifecycle phase of a step progress event. -/
inductive Phase where
  | start
  | success
  | error
deriving DecidableEq, BEq

/-- The step name and phase of a step progress event, if it is one. -/
def stepPhase1 : Event → Option (String × Phase)
  | Event.stepStart s _ => some (s, Phase.start)
  | Event.stepSuccess s _ => some (s, Phase.success)
  | Event.stepError s _ => some (s, Phase.error)
  | _ => none

/-- The (step name, phase) trace of the step progress events of a run. -/
def stepPhases (l : List Event) : List (String × Phase) := l.filterMap stepPhase1

/-- Is this event a step-start event for `step`? -/
def isStepStartFor (step : String) : Event → Bool
  | Event.stepStart s _ => s == step
  | _ => false

/-- Is this event a step-success event for `step`? -/
def isStepSuccessFor (step : String) : Event → Bool
  | Event.stepSuccess s _ => s == step
  | _ => false

/-- Is this event a step-error event for `step`? -/
def isStepErrorFor (step : String) : Event → Bool
  | Event.stepError s _ => s == step
  | _ => false

/-- Is this event any step progress event for `step`? -/
def isStepEventFor (step : String) : Event → Bool
  | Event.stepStart s _ => s == step
  | Event.stepSuccess s _ => s == step
  | Event.stepError s _ => s == step
  | _ => false

/-- Does the trace contain a step-start event for `step`? -/
def hasStepStart (step : String) (l : List Event) : Bool := l.any (isStepStartFor step)

/-- Does the trace contain a step-success event for `step`? -/
def hasStepSuccess (step : String) (l : List Event) : Bool := l.any (isStepSuccessFor step)

/-- Does the trace contain a step-error event for `step`? -/
def hasStepError (step : String) (l : List Event) : Bool := l.any (isStepErrorFor step)

/-- Does the trace contain any step progress event for `step`? -/
def hasStep (step : String) (l : List Event) : Bool := l.any (isStepEventFor step)

theorem stepPhases_append (l1 l2 : List Event) :
    stepPhases (l1 ++ l2) = stepPhases l1 ++ stepPhases l2 := by
  simp [stepPhases]

theorem stepPhase1_pr (pe : PREvent) : stepPhase1 (prEventToEvent pe) = none := by
  cases pe <;> rfl

theorem stepPhases_prMap (l : List PREvent) :
    stepPhases (l.map prEventToEvent) = [] := by
  induction l with
  | nil => rfl
  | cons a t ih =>
    simp only [List.map_cons, stepPhases, List.filterMap_cons, stepPhase1_pr]
    exact ih

theorem any_prMap_false (f : Event → Bool) (hf : ∀ pe, f (prEventToEvent pe) = false)
    (l : List PREvent) : (l.map prEventToEvent).any f = false := by
  induction l with
  | nil => rfl
  | cons a t ih => simp [List.any_cons, hf, ih]

/-! ## Claims -/

/-- C4: for every workflow invocation whose name is not
"receipt_enrichment", the orchestrator immediately resolves to
`{error: "Unknown workflow: <name>"}` and writes zero events to the
progress stream. -/
theorem c4_unknown_workflow (name : String) (env : WfEnv)
    (h : name ≠ "receipt_enrichment") :
    runWorkflowExecute name env
      = ([], Except.ok (RunResult.errorResult (("Unknown workflow: ") ++ name))) := by
  simp [runWorkflowExecute, h]

/-- A workflow environment used to instantiate the C4 theorem. -/
def c4env : WfEnv :=
  { extractEmitted := [], extractOutcome := Except.ok (PRReturn.okShape none)
    searchOutcome := Except.ok (SearchReturn.errorShape ("x"))
    categorizeOutcome := Except.ok
      { category := ("Other"), confidence := 0, rationale := ("r") } }

/-- Witness for C4 at the spec's scenario C input `"foo"`. -/
theorem c4_unknown_workflow_witness :
    runWorkflowExecute ("foo") c4env
      = ([], Except.ok (RunResult.errorResult ("Unknown workflow: foo"))) :=
  c4_unknown_workflow ("foo") c4env (by decide)

/-- C2: whenever the awaited extraction call rejects, the orchestrator's
trace is exactly the pre-step writes, the extract step-start, the adapter's
own writes, and a step-error for extract; the error is re-raised (the run
rejects with it), the only step events are extract's start and error - so
no categorize or merge step events exist - and no success payload (hence no
receipt) is returned. -/
theorem c2_extract_failure_fatal (env : WfEnv) (err : String)
    (h : env.extractOutcome = Except.error err) :
    (runWorkflowExecute ("receipt_enrichment") env).1
      = ([Event.dataTitle ("Receipt Data"), Event.dataKind ("receipt"), Event.dataClear,
          Event.stepStart ("extract") Payload.noInfo]
         ++ env.extractEmitted.map prEventToEvent) ++ [Event.stepError ("extract") err]
    ∧ (runWorkflowExecute ("receipt_enrichment") env).2 = Except.error err
    ∧ stepPhases (runWorkflowExecute ("receipt_enrichment") env).1
        = [(("extract"), Phase.start), (("extract"), Phase.error)]
    ∧ hasStep ("categorize") (runWorkflowExecute ("receipt_enrichment") env).1 = false
    ∧ hasStep ("merge") (runWorkflowExecute ("receipt_enrichment") env).1 = false
    ∧ ∀ wf r c v, (runWorkflowExecute ("receipt_enrichment") env).2
        ≠ Except.ok (RunResult.successResult wf r c v) := by
  obtain ⟨ee, eo, so, co⟩ := env
  dsimp only at h
  subst h
  have h1 : (runWorkflowExecute ("receipt_enrichment")
      ⟨ee, Except.error err, so, co⟩).1
      = ([Event.dataTitle ("Receipt Data"), Event.dataKind ("receipt"), Event.dataClear,
          Event.stepStart ("extract") Payload.noInfo]
         ++ ee.map prEventToEvent) ++ [Event.stepError ("extract") err] := rfl
  have h2 : (runWorkflowExecute ("receipt_enrichment")
      ⟨ee, Except.error err, so, co⟩).2 = Except.error err := rfl
  refine ⟨h1, h2, ?_, ?_, ?_, ?_⟩
  · rw [h1, stepPhases_append, stepPhases_append, stepPhases_prMap]
    rfl
  · rw [h1]
    simp only [hasStep, List.any_append,
      any_prMap_false (isStepEventFor ("categorize")) (fun pe => by cases pe <;> rfl)]
    rfl
  · rw [h1]
    simp only [hasStep, List.any_append,
      any_prMap_false (isStepEventFor ("merge")) (fun pe => by cases pe <;> rfl)]
    rfl
  · intro wf r c v hcontra
    rw [h2] at hcontra
    exact Except.noConfusion hcontra

/-- A workflow environment whose extraction call rejects, instantiating C2. -/
def c2env : WfEnv :=
  { extractEmitted := [PREvent.prKind ("receipt"), PREvent.prClear]
    extractOutcome := Except.error ("vision model unavailable")
    searchOutcome := Except.ok (SearchReturn.errorShape ("x"))
    categorizeOutcome := Except.ok
      { category := ("Other"), confidence := 0, rationale := ("r") } }

/-- Witness for C2 at a concrete rejecting extraction. -/
theorem c2_extract_failure_fatal_witness :
    (runWorkflowExecute ("receipt_enrichment") c2env).2
        = Except.error ("vision model unavailable")
    ∧ stepPhases (runWorkflowExecute ("receipt_enrichment") c2env).1
        = [(("extract"), Phase.start), (("extract"), Phase.error)]
    ∧ hasStep ("categorize") (runWorkflowExecute ("receipt_enrichment") c2env).1 = false :=
  let h := c2_extract_failure_fatal c2env ("vision model unavailable") rfl
  ⟨h.2.1, h.2.2.1, h.2.2.2.1⟩

theorem vendorEvents_any_false (m : Option String) (so : Except String SearchReturn)
    (f : Event → Bool)
    (h1 : ∀ err, f (Event.stepError ("vendor_search") err) = false)
    (h2 : ∀ p, f (Event.stepSuccess ("vendor_search") p) = false) :
    (vendorEvents m so).1.any f = false := by
  unfold vendorEvents
  by_cases hm : jsTruthyStr m = true
  · rcases so with err | sr <;> simp [hm, h1, h2]
  · simp [hm, h2]

theorem catEvents_any_false (co : Except String Categorization)
    (f : Event → Bool)
    (h1 : ∀ err, f (Event.stepError ("categorize") err) = false)
    (h2 : ∀ p, f (Event.stepSuccess ("categorize") p) = false) :
    (catEvents co).1.any f = false := by
  rcases co with err | c <;> simp [catEvents, h1, h2]

/-- C10: when the inner extraction tool resolves to an object with no
`extractedData` (in particular the `{error: ...}` object its catch-all
returns for any internal failure, persistence failures included), the
orchestrator emits a step-success for extract with `hasData: false`, still
emits the vendor_search and categorize steps, and resolves to
`success: true` with no receipt and no vendor. -/
theorem c10_missing_extracted_data :
    (∀ msg, (PRReturn.errorShape msg).extractedData? = none)
    ∧ (∀ (envP : PREnv) (uuid desc : String) (i1 i2 : Option String) (e : String),
        envP.streamThrows = none → envP.hasUser = true → envP.stream ≠ [] →
        envP.saveOutcome = Except.error e →
        (processReceiptExecute envP uuid desc i1 i2).2
          = PRReturn.errorShape ("Failed to process receipt. Please try again."))
    ∧ (∀ (env : WfEnv) (ret : PRReturn),
        env.extractOutcome = Except.ok ret → ret.extractedData? = none →
        Event.stepSuccess ("extract") (Payload.hasData false)
            ∈ (runWorkflowExecute ("receipt_enrichment") env).1
        ∧ hasStepStart ("vendor_search") (runWorkflowExecute ("receipt_enrichment") env).1 = true
        ∧ hasStepStart ("categorize") (runWorkflowExecute ("receipt_enrichment") env).1 = true
        ∧ ∃ cat, (runWorkflowExecute ("receipt_enrichment") env).2
            = Except.ok (RunResult.successResult ("receipt_enrichment") none cat none)) := by
  refine ⟨fun msg => rfl, ?_, ?_⟩
  · intro envP uuid desc i1 i2 e h1 h2 h3 h4
    obtain ⟨td, st, sth, hu, sv⟩ := envP
    dsimp only at h1 h2 h3 h4
    subst h1; subst h2; subst h4
    rcases hL : (st.map (attachImg (jsOrOpt i1 i2))).getLast? with _ | x
    · rw [List.getLast?_eq_none_iff, List.map_eq_nil_iff] at hL
      exact absurd hL h3
    · simp [processReceiptExecute, hL]
  · intro env ret hex hdata
    obtain ⟨ee, eo, so, co⟩ := env
    dsimp only at hex
    subst hex
    refine ⟨?_, ?_, ?_, ⟨(catEvents co).2, ?_⟩⟩
    · simp [runWorkflowExecute, hdata]
    · simp only [runWorkflowExecute, if_pos rfl, hdata]
      simp [hasStepStart, List.any_append, isStepStartFor,
        any_prMap_false (isStepStartFor ("vendor_search")) (fun pe => by cases pe <;> rfl)]
    · simp only [runWorkflowExecute, if_pos rfl, hdata]
      simp [hasStepStart, List.any_append, isStepStartFor,
        any_prMap_false (isStepStartFor ("categorize")) (fun pe => by cases pe <;> rfl),
        vendorEvents_any_false _ _ (isStepStartFor ("categorize"))
          (fun err => rfl) (fun p => rfl)]
    · simp [runWorkflowExecute, hdata, vendorEvents, jsTruthyStr]

/-- The extraction-adapter environment of the C10 witness: the stream
produced one record but persisting it fails. -/
def c10envP : PREnv :=
  { today := ("2025-06-01").toList
    stream := [{ emptyReceipt with merchantName := some ("Acme") }]
    streamThrows := none, hasUser := true
    saveOutcome := Except.error ("db down") }

/-- The orchestrator environment of the C10 witness: the extract call
resolves to the adapter's `{error: ...}` object. -/
def c10env : WfEnv :=
  { extractEmitted := []
    extractOutcome := Except.ok
      (processReceiptExecute c10envP ("id0") ("desc") none none).2
    searchOutcome := Except.ok (SearchReturn.errorShape ("unused"))
    categorizeOutcome := Except.ok
      { category := ("Other"), confidence := (3 : ℚ) / 10
        rationale := ("Fallback categorization") } }

/-- Witness for C10: a persistence failure inside the extraction tool flows
through the orchestrator as `hasData: false` with all steps still run. -/
theorem c10_missing_extracted_data_witness :
    (processReceiptExecute c10envP ("id0") ("desc") none none).2
      = PRReturn.errorShape ("Failed to process receipt. Please try again.")
    ∧ Event.stepSuccess ("extract") (Payload.hasData false)
        ∈ (runWorkflowExecute ("receipt_enrichment") c10env).1
    ∧ hasStepStart ("vendor_search") (runWorkflowExecute ("receipt_enrichment") c10env).1 = true
    ∧ hasStepStart ("categorize") (runWorkflowExecute ("receipt_enrichment") c10env).1 = true
    ∧ ∃ cat, (runWorkflowExecute ("receipt_enrichment") c10env).2
        = Except.ok (RunResult.successResult ("receipt_enrichment") none cat none) := by
  have h2 := c10_missing_extracted_data.2.1 c10envP ("id0") ("desc") none none
    ("db down") rfl rfl (by decide) rfl
  have h3 := c10_missing_extracted_data.2.2 c10env
    (processReceiptExecute c10envP ("id0") ("desc") none none).2 rfl (by rw [h2]; rfl)
  exact ⟨h2, h3.1, h3.2.1, h3.2.2.1, h3.2.2.2⟩

/-- C6: when the categorizer's generation stream yields no parsed object,
`categorizeTransaction.execute` returns exactly the fixed triple
`{Other, 0.3, "Fallback categorization"}` as a normal (non-raised) result,
identically for any two such inputs, and feeding that resolved value to the
orchestrator produces a categorize step-success and never the categorize
step-error path. -/
theorem c6_categorizer_fallback (ds1 ds2 : List CatDelta)
    (h1 : lastObject ds1 = none) (h2 : lastObject ds2 = none) :
    categorizeTransactionExecute ds1
      = { category := ("Other"), confidence := (3 : ℚ) / 10
          rationale := ("Fallback categorization") }
    ∧ categorizeTransactionExecute ds1 = categorizeTransactionExecute ds2
    ∧ (∀ (env : WfEnv), env.categorizeOutcome
          = Except.ok (categorizeTransactionExecute ds1) →
        hasStepError ("categorize") (runWorkflowExecute ("receipt_enrichment") env).1 = false
        ∧ (∀ ret, env.extractOutcome = Except.ok ret →
            hasStepSuccess ("categorize")
              (runWorkflowExecute ("receipt_enrichment") env).1 = true)) := by
  have he1 : categorizeTransactionExecute ds1
      = { category := ("Other"), confidence := (3 : ℚ) / 10
          rationale := ("Fallback categorization") } := by
    unfold categorizeTransactionExecute
    rw [h1]
  have he2 : categorizeTransactionExecute ds2
      = { category := ("Other"), confidence := (3 : ℚ) / 10
          rationale := ("Fallback categorization") } := by
    unfold categorizeTransactionExecute
    rw [h2]
  refine ⟨he1, he1.trans he2.symm, ?_⟩
  intro env hco
  obtain ⟨ee, eo, so, co⟩ := env
  dsimp only at hco
  subst hco
  constructor
  · rcases eo with err | ret
    · simp [runWorkflowExecute, hasStepError, List.any_append, isStepErrorFor,
        any_prMap_false (isStepErrorFor ("categorize")) (fun pe => by cases pe <;> rfl)]
    · simp [runWorkflowExecute, hasStepError, List.any_append,
        any_prMap_false (isStepErrorFor ("categorize")) (fun pe => by cases pe <;> rfl),
        vendorEvents_any_false _ _ (isStepErrorFor ("categorize"))
          (fun err => rfl) (fun p => rfl),
        catEvents, isStepErrorFor]
      rcases hr : ret.extractedData? with _ | r <;> simp
  · intro ret hret
    dsimp only at hret
    subst hret
    simp [runWorkflowExecute, hasStepSuccess, List.any_append, isStepSuccessFor,
      any_prMap_false (isStepSuccessFor ("categorize")) (fun pe => by cases pe <;> rfl),
      catEvents]

/-- Witness for C6 at two concrete empty-object streams. -/
theorem c6_categorizer_fallback_witness :
    categorizeTransactionExecute [CatDelta.otherDelta]
      = { category := ("Other"), confidence := (3 : ℚ) / 10
          rationale := ("Fallback categorization") }
    ∧ hasStepError ("categorize")
        (runWorkflowExecute ("receipt_enrichment") c10env).1 = false := by
  have h := c6_categorizer_fallback [CatDelta.otherDelta] [] rfl rfl
  refine ⟨h.1, ?_⟩
  have h3 := (h.2.2 c10env (by rw [h.1]; rfl)).1
  exact h3

/-- A receipt with a truthy merchant name, for concrete runs. -/
def rcptAcme : ReceiptData := { emptyReceipt with merchantName := some ("Acme") }

/-- A concrete categorization value, for concrete runs. -/
def catBase : Categorization :=
  { category := ("Shopping"), confidence := 1, rationale := ("r") }

/-- A concrete search result, for concrete runs. -/
def itemAcme : SearchItem :=
  { title := ("Acme"), snippet := ("s"), url := ("http://a"), score := none }

/-- An orchestrator environment whose extracted record has no merchant
name. -/
def c3env : WfEnv :=
  { extractEmitted := []
    extractOutcome := Except.ok (PRReturn.okShape (some emptyReceipt))
    searchOutcome := Except.ok (SearchReturn.errorShape ("unused"))
    categorizeOutcome := Except.ok catBase }

/-- Counterexample to C3 as stated: with an extracted record that has no
merchant name, a `vendor_search` step-start event IS emitted. -/
theorem c3_counterexample :
    emptyReceipt.merchantName = none
    ∧ c3env.extractOutcome = Except.ok (PRReturn.okShape (some emptyReceipt))
    ∧ hasStepStart ("vendor_search")
        (runWorkflowExecute ("receipt_enrichment") c3env).1 = true := by
  refine ⟨rfl, rfl, ?_⟩
  rfl

/-- C3 (amended): when the extracted record has no truthy merchant name the
search call itself is skipped and the vendor annotation stays absent (the
run's `vendor` is `undefined` and the merged record's vendor is `null`),
but a `vendor_search` step-start event is still emitted (carrying the
absent merchant), followed by a step-success with `found: false` and no
step-error. -/
theorem c3_vendor_skip (env : WfEnv) (ret : PRReturn) (r : ReceiptData)
    (hex : env.extractOutcome = Except.ok ret)
    (hr : ret.extractedData? = some r)
    (hm : jsTruthyStr r.merchantName = false) :
    Event.stepStart ("vendor_search") (Payload.merchant r.merchantName)
        ∈ (runWorkflowExecute ("receipt_enrichment") env).1
    ∧ Event.stepSuccess ("vendor_search") (Payload.found false)
        ∈ (runWorkflowExecute ("receipt_enrichment") env).1
    ∧ hasStepError ("vendor_search") (runWorkflowExecute ("receipt_enrichment") env).1 = false
    ∧ ∃ cat, (runWorkflowExecute ("receipt_enrichment") env).2
          = Except.ok (RunResult.successResult ("receipt_enrichment") (some r) cat none)
        ∧ Event.dataReceiptEnriched { base := r, categorization := cat, vendor := none }
            ∈ (runWorkflowExecute ("receipt_enrichment") env).1 := by
  obtain ⟨ee, eo, so, co⟩ := env
  dsimp only at hex
  subst hex
  refine ⟨?_, ?_, ?_, ⟨(catEvents co).2, ?_, ?_⟩⟩
  · simp [runWorkflowExecute, hr]
  · simp [runWorkflowExecute, hr, vendorEvents, hm, foundFlag]
  · simp [runWorkflowExecute, hasStepError, List.any_append, isStepErrorFor, hr,
      any_prMap_false (isStepErrorFor ("vendor_search")) (fun pe => by cases pe <;> rfl),
      vendorEvents, hm, foundFlag,
      catEvents_any_false _ (isStepErrorFor ("vendor_search"))
        (fun err => rfl) (fun p => rfl)]
  · simp [runWorkflowExecute, hr, vendorEvents, hm]
  · simp [runWorkflowExecute, hr, vendorEvents, hm, firstResult?]

/-- Witness for the amended C3 at a concrete merchantless run. -/
theorem c3_vendor_skip_witness :
    Event.stepStart ("vendor_search") (Payload.merchant none)
        ∈ (runWorkflowExecute ("receipt_enrichment") c3env).1
    ∧ ∃ cat, (runWorkflowExecute ("receipt_enrichment") c3env).2
        = Except.ok (RunResult.successResult ("receipt_enrichment") (some emptyReceipt) cat none) := by
  have h := c3_vendor_skip c3env (PRReturn.okShape (some emptyReceipt)) emptyReceipt
    rfl rfl rfl
  exact ⟨h.1, h.2.2.2.elim (fun cat hc => ⟨cat, hc.1⟩)⟩

/-- A search environment with an authenticated user but no API credential. -/
def c5searchEnv : SearchEnv :=
  { userId := some ("u1"), apiKey := none, fetchThrows := none
    fetchOk := true, fetchResults := [], fetchAnswer := none }

/-- An orchestrator environment wired to the credential-missing vendor
lookup result. -/
def c5env : WfEnv :=
  { extractEmitted := []
    extractOutcome := Except.ok (PRReturn.okShape (some rcptAcme))
    searchOutcome := Except.ok
      (searchWebExecute c5searchEnv ("Acme official site address reviews") 5)
    categorizeOutcome := Except.ok catBase }

/-- Counterexample to C5 as stated: with the vendor-search credential
absent, the lookup does return the `{error: ...}` shape, but the
orchestrator emits NO `vendor_search` step-error event (it emits a
step-success with `found: false`) and the final `vendor` is the
error-shaped object rather than `undefined`. -/
theorem c5_counterexample :
    searchWebExecute c5searchEnv ("Acme official site address reviews") 5
      = SearchReturn.errorShape ("Missing TAVILY_API_KEY")
    ∧ hasStepError ("vendor_search")
        (runWorkflowExecute ("receipt_enrichment") c5env).1 = false
    ∧ hasStepSuccess ("vendor_search")
        (runWorkflowExecute ("receipt_enrichment") c5env).1 = true
    ∧ (runWorkflowExecute ("receipt_enrichment") c5env).2
      = Except.ok (RunResult.successResult ("receipt_enrichment") (some rcptAcme)
          (some catBase) (some (SearchReturn.errorShape ("Missing TAVILY_API_KEY")))) := by
  refine ⟨rfl, rfl, rfl, rfl⟩

/-- C5 (amended): a missing credential makes the vendor lookup resolve
(not throw) to `{error: "Missing TAVILY_API_KEY"}`; the orchestrator does
not check for this shape: it stores it as `merchantInfo`, emits a
`vendor_search` step-success with `found: false` and no step-error, and the
final response still has `success: true` with `vendor` being the
error-shaped object. -/
theorem c5_vendor_error_shape :
    (∀ (senv : SearchEnv) (q : String) (mr : Nat),
        jsTruthyStr senv.userId = true → jsTruthyStr senv.apiKey = false →
        searchWebExecute senv q mr = SearchReturn.errorShape ("Missing TAVILY_API_KEY"))
    ∧ (∀ (env : WfEnv) (ret : PRReturn) (r : ReceiptData) (msg : String),
        env.extractOutcome = Except.ok ret → ret.extractedData? = some r →
        jsTruthyStr r.merchantName = true →
        env.searchOutcome = Except.ok (SearchReturn.errorShape msg) →
        hasStepError ("vendor_search")
            (runWorkflowExecute ("receipt_enrichment") env).1 = false
        ∧ Event.stepSuccess ("vendor_search") (Payload.found false)
            ∈ (runWorkflowExecute ("receipt_enrichment") env).1
        ∧ ∃ cat, (runWorkflowExecute ("receipt_enrichment") env).2
            = Except.ok (RunResult.successResult ("receipt_enrichment") (some r) cat
                (some (SearchReturn.errorShape msg)))) := by
  constructor
  · intro senv q mr h1 h2
    simp [searchWebExecute, h1, h2]
  · intro env ret r msg hex hr hm hso
    obtain ⟨ee, eo, so, co⟩ := env
    dsimp only at hex hso
    subst hex
    subst hso
    refine ⟨?_, ?_, ⟨(catEvents co).2, ?_⟩⟩
    · simp [runWorkflowExecute, hasStepError, List.any_append, isStepErrorFor,
        any_prMap_false (isStepErrorFor ("vendor_search")) (fun pe => by cases pe <;> rfl),
        vendorEvents, hr, hm, foundFlag,
        catEvents_any_false _ (isStepErrorFor ("vendor_search"))
          (fun err => rfl) (fun p => rfl)]
    · simp [runWorkflowExecute, hr, vendorEvents, hm, foundFlag]
    · simp [runWorkflowExecute, hr, vendorEvents, hm]

/-- Witness for the amended C5 at the concrete credential-missing run. -/
theorem c5_vendor_error_shape_witness :
    searchWebExecute c5searchEnv ("q") 5
      = SearchReturn.errorShape ("Missing TAVILY_API_KEY")
    ∧ Event.stepSuccess ("vendor_search") (Payload.found false)
        ∈ (runWorkflowExecute ("receipt_enrichment") c5env).1 := by
  have h1 := c5_vendor_error_shape.1 c5searchEnv ("q") 5 rfl rfl
  have h2 := c5_vendor_error_shape.2 c5env (PRReturn.okShape (some rcptAcme)) rcptAcme
    ("Missing TAVILY_API_KEY") rfl rfl rfl rfl
  exact ⟨h1, h2.2.1⟩

/-- Is the phase a step outcome (success or error)? -/
def isOutcomePhase : Phase → Bool
  | Phase.start => false
  | _ => true

/-- Modelled from the spec: the claimed shape of a successful run's step
trace, "exactly `extract, (vendor_search)?, categorize, merge`, each
appearing as start-then-(success|error) before the next step's start". -/
def specStepSequence (l : List (String × Phase)) : Bool :=
  match l with
  | [(a1, b1), (a2, b2), (a3, b3), (a4, b4), (a5, b5), (a6, b6), (a7, b7), (a8, b8)] =>
    a1 == "extract" && b1 == Phase.start && a2 == "extract" && isOutcomePhase b2 &&
    a3 == "vendor_search" && b3 == Phase.start && a4 == "vendor_search" && isOutcomePhase b4 &&
    a5 == "categorize" && b5 == Phase.start && a6 == "categorize" && isOutcomePhase b6 &&
    a7 == "merge" && b7 == Phase.start && a8 == "merge" && isOutcomePhase b8
  | [(a1, b1), (a2, b2), (a5, b5), (a6, b6), (a7, b7), (a8, b8)] =>
    a1 == "extract" && b1 == Phase.start && a2 == "extract" && isOutcomePhase b2 &&
    a5 == "categorize" && b5 == Phase.start && a6 == "categorize" && isOutcomePhase b6 &&
    a7 == "merge" && b7 == Phase.start && a8 == "merge" && isOutcomePhase b8
  | _ => false

/-- An orchestrator environment for a fully successful run. -/
def c1env : WfEnv :=
  { extractEmitted := []
    extractOutcome := Except.ok (PRReturn.okShape (some rcptAcme))
    searchOutcome := Except.ok (SearchReturn.okShape ("q") none [itemAcme] ("resp"))
    categorizeOutcome := Except.ok catBase }

/-- Counterexample to C1 as stated: this run returns a success result, yet
its step trace does not match the claimed
`extract, (vendor_search)?, categorize, merge` shape, because no `merge`
step events exist. -/
theorem c1_counterexample :
    (runWorkflowExecute ("receipt_enrichment") c1env).2
      = Except.ok (RunResult.successResult ("receipt_enrichment") (some rcptAcme)
          (some catBase) (some (SearchReturn.okShape ("q") none [itemAcme] ("resp"))))
    ∧ stepPhases (runWorkflowExecute ("receipt_enrichment") c1env).1
      = [(("extract"), Phase.start), (("extract"), Phase.success),
         (("vendor_search"), Phase.start), (("vendor_search"), Phase.success),
         (("categorize"), Phase.start), (("categorize"), Phase.success)]
    ∧ specStepSequence
        (stepPhases (runWorkflowExecute ("receipt_enrichment") c1env).1) = false := by
  refine ⟨rfl, rfl, rfl⟩

theorem stepPhases_vendorEvents (m : Option String) (so : Except String SearchReturn) :
    ∃ p, stepPhases (vendorEvents m so).1 = [(("vendor_search"), p)] ∧ p ≠ Phase.start := by
  unfold vendorEvents
  by_cases hm : jsTruthyStr m = true
  · rcases so with e | sr
    · exact ⟨Phase.error, by simp [hm, stepPhases, stepPhase1], by decide⟩
    · exact ⟨Phase.success, by simp [hm, stepPhases, stepPhase1], by decide⟩
  · exact ⟨Phase.success, by simp [hm, stepPhases, stepPhase1], by decide⟩

theorem stepPhases_catEvents (co : Except String Categorization) :
    ∃ p, stepPhases (catEvents co).1 = [(("categorize"), p)] ∧ p ≠ Phase.start := by
  rcases co with e | c
  · exact ⟨Phase.error, by simp [catEvents, stepPhases, stepPhase1], by decide⟩
  · exact ⟨Phase.success, by simp [catEvents, stepPhases, stepPhase1], by decide⟩

/-- C1 (amended): for every run returning a success result, the step trace
is exactly extract (start then success), vendor_search (start then a
success-or-error outcome - these events are emitted even when the search is
skipped), then categorize (start then a success-or-error outcome); steps
never interleave, and no `merge` step events exist (the merge phase emits
record-updated and finished events only). -/
theorem c1_step_sequence (name : String) (env : WfEnv) (wf : String)
    (receipt : Option ReceiptData) (cat : Option Categorization)
    (vend : Option SearchReturn)
    (h : (runWorkflowExecute name env).2
        = Except.ok (RunResult.successResult wf receipt cat vend)) :
    ∃ p2 p3, stepPhases (runWorkflowExecute name env).1
        = [(("extract"), Phase.start), (("extract"), Phase.success),
           (("vendor_search"), Phase.start), (("vendor_search"), p2),
           (("categorize"), Phase.start), (("categorize"), p3)]
      ∧ p2 ≠ Phase.start ∧ p3 ≠ Phase.start := by
  by_cases hn : name = "receipt_enrichment"
  · subst hn
    obtain ⟨ee, eo, so, co⟩ := env
    rcases eo with err | ret
    · exact absurd h (by simp [runWorkflowExecute])
    · rcases ret with d | msg
      · rcases d with _ | r
        · obtain ⟨p2, hp2, hp2s⟩ := stepPhases_vendorEvents none so
          obtain ⟨p3, hp3, hp3s⟩ := stepPhases_catEvents co
          refine ⟨p2, p3, ?_, hp2s, hp3s⟩
          have h1 : (runWorkflowExecute ("receipt_enrichment")
              ⟨ee, Except.ok (PRReturn.okShape none), so, co⟩).1
              = [Event.dataTitle ("Receipt Data"), Event.dataKind ("receipt"),
                 Event.dataClear, Event.stepStart ("extract") Payload.noInfo]
                ++ ee.map prEventToEvent
                ++ [Event.stepSuccess ("extract") (Payload.hasData false),
                    Event.stepStart ("vendor_search") (Payload.merchant none)]
                ++ (vendorEvents none so).1
                ++ [Event.stepStart ("categorize") Payload.noInfo]
                ++ (catEvents co).1
                ++ ([] : List Event)
                ++ [Event.dataFinish] := rfl
          rw [h1]
          simp only [stepPhases_append, stepPhases_prMap, hp2, hp3]
          simp [stepPhases, stepPhase1]
        · obtain ⟨p2, hp2, hp2s⟩ := stepPhases_vendorEvents r.merchantName so
          obtain ⟨p3, hp3, hp3s⟩ := stepPhases_catEvents co
          refine ⟨p2, p3, ?_, hp2s, hp3s⟩
          have h1 : (runWorkflowExecute ("receipt_enrichment")
              ⟨ee, Except.ok (PRReturn.okShape (some r)), so, co⟩).1
              = [Event.dataTitle ("Receipt Data"), Event.dataKind ("receipt"),
                 Event.dataClear, Event.stepStart ("extract") Payload.noInfo]
                ++ ee.map prEventToEvent
                ++ [Event.stepSuccess ("extract") (Payload.hasData true),
                    Event.stepStart ("vendor_search") (Payload.merchant r.merchantName)]
                ++ (vendorEvents r.merchantName so).1
                ++ [Event.stepStart ("categorize") Payload.noInfo]
                ++ (catEvents co).1
                ++ [Event.dataReceiptEnriched
                     { base := r, categorization := (catEvents co).2,
                       vendor := firstResult? (vendorEvents r.merchantName so).2 }]
                ++ [Event.dataFinish] := rfl
          rw [h1]
          simp only [stepPhases_append, stepPhases_prMap, hp2, hp3]
          simp [stepPhases, stepPhase1]
      · obtain ⟨p2, hp2, hp2s⟩ := stepPhases_vendorEvents none so
        obtain ⟨p3, hp3, hp3s⟩ := stepPhases_catEvents co
        refine ⟨p2, p3, ?_, hp2s, hp3s⟩
        have h1 : (runWorkflowExecute ("receipt_enrichment")
            ⟨ee, Except.ok (PRReturn.errorShape msg), so, co⟩).1
            = [Event.dataTitle ("Receipt Data"), Event.dataKind ("receipt"),
               Event.dataClear, Event.stepStart ("extract") Payload.noInfo]
              ++ ee.map prEventToEvent
              ++ [Event.stepSuccess ("extract") (Payload.hasData false),
                  Event.stepStart ("vendor_search") (Payload.merchant none)]
              ++ (vendorEvents none so).1
              ++ [Event.stepStart ("categorize") Payload.noInfo]
              ++ (catEvents co).1
              ++ ([] : List Event)
              ++ [Event.dataFinish] := rfl
        rw [h1]
        simp only [stepPhases_append, stepPhases_prMap, hp2, hp3]
        simp [stepPhases, stepPhase1]
  · exact absurd h (by simp [runWorkflowExecute, hn])

/-- Witness for the amended C1 at a concrete fully successful run. -/
theorem c1_step_sequence_witness :
    ∃ p2 p3, stepPhases (runWorkflowExecute ("receipt_enrichment") c1env).1
        = [(("extract"), Phase.start), (("extract"), Phase.success),
           (("vendor_search"), Phase.start), (("vendor_search"), p2),
           (("categorize"), Phase.start), (("categorize"), p3)]
      ∧ p2 ≠ Phase.start ∧ p3 ≠ Phase.start :=
  c1_step_sequence ("receipt_enrichment") c1env ("receipt_enrichment")
    (some rcptAcme) (some catBase)
    (some (SearchReturn.okShape ("q") none [itemAcme] ("resp"))) rfl

theorem isYYYYMMDD_of_matchMDY (l : List Char) (t : Nat × Nat × List Char)
    (hM : matchMDY l = some t) : isYYYYMMDD l = false := by
  unfold matchMDY at hM
  unfold isYYYYMMDD
  rcases hsd : splitDigits l with ⟨ds1, r1⟩
  rw [hsd] at hM
  rcases r1 with _ | ⟨c1, r2⟩
  · exact absurd hM (by simp)
  · by_cases hcond : c1 = '/' ∧ 1 ≤ ds1.length ∧ ds1.length ≤ 2
    · obtain ⟨hc1, hlen⟩ := hcond
      subst hc1
      simp
    · simp [hcond] at hM

/-- Counterexample to C7 as stated: `" 2024-01-02"` is "any other string"
for the claim (nonempty, not the sentinel, matching neither anchored
pattern), yet the normalizer returns the trimmed date, not the current
date, because matching happens after `trim()`. -/
theorem c7_counterexample :
    ((" 2024-01-02").toList = [] → False)
    ∧ (" 2024-01-02").toList ≠ sentinelDate
    ∧ isYYYYMMDD ((" 2024-01-02").toList) = false
    ∧ matchMDY ((" 2024-01-02").toList) = none
    ∧ normalizeDateL (("2025-06-01").toList) ((" 2024-01-02").toList)
      = ("2024-01-02").toList
    ∧ ("2024-01-02").toList ≠ ("2025-06-01").toList := by
  decide

/-- C7 (amended): `normalizeDate` matches the whitespace-trimmed input: a
trimmed input matching `YYYY-MM-DD` (other than the sentinel) is returned
(trimmed) unchanged; a trimmed input matching `MM/DD/YYYY` is reformatted
to `YYYY-MM-DD` with the month clamped to [1,12] and the day clamped to
[1,31] component-wise (no calendar-validity check); and an empty trimmed
input, the sentinel `0000-00-00`, or a trimmed input matching neither
pattern resolves to the current date. -/
theorem c7_date_normalizer (today s : List Char) :
    (isYYYYMMDD (jsTrim s) = true → jsTrim s ≠ sentinelDate →
        normalizeDateL today s = jsTrim s)
    ∧ (∀ m d y, matchMDY (jsTrim s) = some (m, d, y) →
        normalizeDateL today s
          = y ++ ('-' :: pad2 (min (max m 1) 12)) ++ ('-' :: pad2 (min (max d 1) 31)))
    ∧ (jsTrim s = [] ∨ jsTrim s = sentinelDate
        ∨ (isYYYYMMDD (jsTrim s) = false ∧ matchMDY (jsTrim s) = none) →
        normalizeDateL today s = today) := by
  have e1 : normalizeDateL today s
      = if jsTrim s = [] ∨ jsTrim s = sentinelDate then today
        else if isYYYYMMDD (jsTrim s) = true then jsTrim s
        else
          match matchMDY (jsTrim s) with
          | some (m, d, y) =>
            y ++ ('-' :: pad2 (min (max m 1) 12)) ++ ('-' :: pad2 (min (max d 1) 31))
          | none => today := rfl
  refine ⟨?_, ?_, ?_⟩
  · intro hY hsent
    have hnil : jsTrim s ≠ [] := by
      intro hn
      rw [hn] at hY
      exact absurd hY (by decide)
    rw [e1, if_neg (by rintro (h | h) <;> [exact hnil h; exact hsent h]), if_pos hY]
  · intro m d y hm
    have hnil : jsTrim s ≠ [] := by
      intro hn
      rw [hn] at hm
      exact absurd hm (by simp [matchMDY, splitDigits])
    have hsent : jsTrim s ≠ sentinelDate := by
      intro hn
      rw [hn] at hm
      have : matchMDY sentinelDate = none := by decide
      rw [this] at hm
      exact Option.noConfusion hm
    have hY : ¬(isYYYYMMDD (jsTrim s) = true) := by
      rw [isYYYYMMDD_of_matchMDY (jsTrim s) (m, d, y) hm]
      decide
    rw [e1, if_neg (by rintro (h | h) <;> [exact hnil h; exact hsent h]), if_neg hY, hm]
  · intro h
    rcases h with h | h | ⟨hY, hM⟩
    · rw [e1, if_pos (Or.inl h)]
    · rw [e1, if_pos (Or.inr h)]
    · by_cases hns : jsTrim s = [] ∨ jsTrim s = sentinelDate
      · rw [e1, if_pos hns]
      · rw [e1, if_neg hns, if_neg (by rw [hY]; decide), hM]

/-- Witness for the amended C7 at the spec's scenario D input
`"13/45/2024"`. -/
theorem c7_date_normalizer_witness :
    matchMDY (jsTrim (("13/45/2024").toList)) = some (13, 45, ("2024").toList)
    ∧ normalizeDateL (("2025-06-01").toList) (("13/45/2024").toList)
      = ("2024-12-31").toList := by
  refine ⟨by decide, ?_⟩
  have h := (c7_date_normalizer (("2025-06-01").toList) (("13/45/2024").toList)).2.1
    13 45 (("2024").toList) (by decide)
  rw [h]
  decide

/-- Counterexample to C8 as stated: `" 9:30"` matches none of the claimed
`H:MM` / `HH:MM` / `HH:MM:SS` anchored patterns (leading space), so by the
claim it should yield "absent", yet the normalizer returns `"09:30"`,
because matching happens after `trim()`. -/
theorem c8_counterexample :
    matchHM ((" 9:30").toList) = none
    ∧ normalizeTimeL ((" 9:30").toList) = some (("09:30").toList) := by
  decide

/-- C8 (amended): `normalizeTime` matches the whitespace-trimmed input: a
trimmed input matching `H:MM`, `HH:MM` or `HH:MM:SS` is returned as
zero-padded `HH:MM` with the hour clamped to [0,23] and the minute clamped
to [0,59]; every other trimmed input yields "absent" (`undefined`); the
normalizer is a total function and never raises. -/
theorem c8_time_normalizer (s : List Char) :
    (∀ h m, matchHM (jsTrim s) = some (h, m) →
        normalizeTimeL s
          = some (pad2 (min (max h 0) 23) ++ (':' :: pad2 (min (max m 0) 59))))
    ∧ (matchHM (jsTrim s) = none → normalizeTimeL s = none) := by
  have e1 : normalizeTimeL s
      = if jsTrim s = [] then none
        else
          match matchHM (jsTrim s) with
          | some (h, m) =>
            some (pad2 (min (max h 0) 23) ++ (':' :: pad2 (min (max m 0) 59)))
          | none => none := rfl
  constructor
  · intro h m hm
    have hnil : jsTrim s ≠ [] := by
      intro hn
      rw [hn] at hm
      exact absurd hm (by simp [matchHM, splitDigits])
    rw [e1, if_neg hnil, hm]
  · intro hm
    by_cases hnil : jsTrim s = []
    · rw [e1, if_pos hnil]
    · rw [e1, if_neg hnil, hm]

/-- Witness for the amended C8 at `"9:30"` (match) and `"abc"` (no match). -/
theorem c8_time_normalizer_witness :
    normalizeTimeL (("9:30").toList)
      = some (pad2 (min (max 9 0) 23) ++ (':' :: pad2 (min (max 30 0) 59)))
    ∧ normalizeTimeL (("abc").toList) = none :=
  ⟨(c8_time_normalizer (("9:30").toList)).1 9 30 (by decide),
   (c8_time_normalizer (("abc").toList)).2 (by decide)⟩

theorem getLast?_map_local {α β : Type} (f : α → β) (l : List α) :
    (l.map f).getLast? = (l.getLast?).map f := by
  induction l with
  | nil => rfl
  | cons a t ih =>
    rcases t with _ | ⟨b, t2⟩
    · rfl
    · simpa using ih

theorem attachImg_receiptDate (i : Option String) (d : ReceiptData) :
    (attachImg i d).receiptDate = d.receiptDate := by
  unfold attachImg
  split <;> rfl

theorem attachImg_receiptTime (i : Option String) (d : ReceiptData) :
    (attachImg i d).receiptTime = d.receiptTime := by
  unfold attachImg
  split <;> rfl

/-- The record of the C9 runs: raw extracted date `"13/45/2024"` and raw
time `"9:5"`. -/
def c9rcpt : ReceiptData :=
  { emptyReceipt with receiptDate := some ("13/45/2024"), receiptTime := some ("9:5") }

/-- The extraction-adapter environment of the C9 runs. -/
def c9envP : PREnv :=
  { today := ("2025-06-01").toList, stream := [c9rcpt], streamThrows := none
    hasUser := false, saveOutcome := Except.ok () }

/-- The record the C9 run returns: the raw record with the image URL
attached. -/
def c9ret : ReceiptData := { c9rcpt with imageUrl := some ("http://img") }

/-- Counterexample to C9 as stated: the record this successful extraction
returns still carries the raw `receiptDate` `"13/45/2024"` and raw
`receiptTime` `"9:5"`, not the Field Normalizer's outputs on them
(`"2024-12-31"` and "absent"), so the adapter does not apply the Field
Normalizer before returning the record to the orchestrator. -/
theorem c9_counterexample :
    (processReceiptExecute c9envP ("id0") ("d") (some ("http://img")) none).2
      = PRReturn.okShape (some c9ret)
    ∧ c9ret.receiptDate = some ("13/45/2024")
    ∧ normalizeDateField c9envP.today (some ("13/45/2024")) = ("2024-12-31").toList
    ∧ (("13/45/2024") : String).toList ≠ ("2024-12-31").toList
    ∧ c9ret.receiptTime = some ("9:5")
    ∧ normalizeTimeField (some ("9:5")) = none
    ∧ c9ret.imageUrl = some ("http://img") := by
  decide

/-- C9 (amended): for every successful extraction, the record returned to
the orchestrator is the last streamed record with the resolved image URL
attached when not already present; its `receiptDate` and `receiptTime` are
the raw extracted values - the Field Normalizer is NOT applied to the
returned record - while the header handed to the persistence call
(`saveReceiptToSupabase`) does carry the normalized `receiptDate` and
`receiptTime`. -/
theorem c9_returned_record (env : PREnv) (uuid desc : String)
    (i1 i2 : Option String) (r : ReceiptData)
    (h : (processReceiptExecute env uuid desc i1 i2).2 = PRReturn.okShape (some r)) :
    ∃ d, env.stream.getLast? = some d
      ∧ r = attachImg (jsOrOpt i1 i2) d
      ∧ r.receiptDate = d.receiptDate
      ∧ r.receiptTime = d.receiptTime
      ∧ (jsTruthyStr (jsOrOpt i1 i2) = true → jsTruthyStr d.imageUrl = false →
          r.imageUrl = jsOrOpt i1 i2)
      ∧ (toSavedHeader env.today r).receiptDate = normalizeDateField env.today r.receiptDate
      ∧ (toSavedHeader env.today r).receiptTime = normalizeTimeField r.receiptTime := by
  obtain ⟨td, st, sth, hu, sv⟩ := env
  dsimp only at h ⊢
  have hL : (st.map (attachImg (jsOrOpt i1 i2))).getLast? = some r := by
    rcases sth with _ | e
    · rcases hL0 : (st.map (attachImg (jsOrOpt i1 i2))).getLast? with _ | x
      · cases hu
        · simp [processReceiptExecute, hL0] at h
        · simp [processReceiptExecute, hL0] at h
      · cases hu
        · simp [processReceiptExecute, hL0] at h
          rw [h]
        · rcases sv with e2 | u
          · simp [processReceiptExecute, hL0] at h
          · simp [processReceiptExecute, hL0] at h
            rw [h]
    · simp [processReceiptExecute] at h
  rw [getLast?_map_local] at hL
  obtain ⟨d, hd, hfd⟩ := Option.map_eq_some'.mp hL
  refine ⟨d, hd, hfd.symm, ?_, ?_, ?_, rfl, rfl⟩
  · rw [← hfd]
    exact attachImg_receiptDate (jsOrOpt i1 i2) d
  · rw [← hfd]
    exact attachImg_receiptTime (jsOrOpt i1 i2) d
  · intro h1 h2
    rw [← hfd]
    unfold attachImg
    rw [if_pos ⟨h1, h2⟩]

/-- Witness for the amended C9 at the concrete run of the counterexample. -/
theorem c9_returned_record_witness :
    ∃ d, c9envP.stream.getLast? = some d
      ∧ c9ret = attachImg (jsOrOpt (some ("http://img")) none) d
      ∧ c9ret.receiptDate = d.receiptDate
      ∧ c9ret.receiptTime = d.receiptTime
      ∧ (jsTruthyStr (jsOrOpt (some ("http://img")) none) = true →
          jsTruthyStr d.imageUrl = false →
          c9ret.imageUrl = jsOrOpt (some ("http://img")) none)
      ∧ (toSavedHeader c9envP.today c9ret).receiptDate
          = normalizeDateField c9envP.today c9ret.receiptDate
      ∧ (toSavedHeader c9envP.today c9ret).receiptTime
          = normalizeTimeField c9ret.receiptTime :=
  c9_returned_record c9envP ("id0") ("d") (some ("http://img")) none c9ret (by decide)
